import Mathlib

/-!
Verification development for the BAR file syncer (`src/index.js`).

The program watches a directory for `.bar` files, debounces change events
per path, and uploads each changed file to a remote API, authenticating with
a cached bearer token (`generateToken`), invalidating the cache and retrying
on an upload 401 (`uploadBarFile`), with a debounce timer map
(`handleFileChange`) and a SIGINT shutdown handler.

The definitions below are a shallow embedding of that code: module-level
mutable state (`cachedToken`, `tokenExpiry`, the `debounceTimers` map) is
threaded explicitly, `Date.now()` is an explicit `now : Nat` argument, and
each external interaction (token fetch, upload fetch, `fs.statSync`) takes
its outcome from an explicit environment, recorded in an event trace.
-/

namespace BarSync

/-- Configuration object (`config`, index.js lines 12-22), restricted to the
fields the upload pipeline reads. -/
structure Config where
  apiBaseUrl : String
  clientId : String
  clientSecret : String
  apiKey : String
  instanceId : String
  debounceMs : Nat
deriving Repr, DecidableEq

/-- Outcome of one external `fetch` call, as the code observes it:
either the promise rejects (`netError`, a transport-level failure), or a
response arrives with a `status`, `statusText` and text `body`.  `json` is
the result of `response.json()`: `some v` when the body parses (for the
token endpoint `v` is the `access_token` field, which the API contract of
the spec, section 6, guarantees on success), `none` when `.json()` throws. -/
inductive FetchOutcome where
  | response (status : Nat) (statusText : String) (body : String) (json : Option String)
  | netError (msg : String)
deriving Repr, DecidableEq

/-- `response.ok` of the fetch API: status in the inclusive range 200-299. -/
def respOk (status : Nat) : Bool :=
  200 ≤ status && status < 300

/-- The module-level token cache: `let cachedToken = null; let tokenExpiry = null;`
(index.js lines 54-55). `none` models `null`. -/
structure TokenState where
  cachedToken : Option String
  tokenExpiry : Option Nat
deriving Repr, DecidableEq

/-- JavaScript truthiness of a nullable string: `null` and `""` are falsy. -/
def truthyStr : Option String → Bool
  | none => false
  | some s => s != ""

/-- JavaScript truthiness of a nullable number: `null` and `0` are falsy. -/
def truthyNum : Option Nat → Bool
  | none => false
  | some n => n != 0

/-- The cached-token validity check of index.js line 63:
`cachedToken && tokenExpiry && Date.now() < tokenExpiry`. -/
def tokenGuard (now : Nat) (s : TokenState) : Bool :=
  truthyStr s.cachedToken && truthyNum s.tokenExpiry &&
    (match s.tokenExpiry with
     | some e => decide (now < e)
     | none => false)

/-- 50 minutes in milliseconds: the cached validity window
(`50 * 60 * 1000`, index.js line 97). -/
def mins50 : Nat := 50 * 60 * 1000

/-- Errors thrown inside the upload pipeline.  `tokenFailed` is the
`Error` thrown at index.js line 90 for a non-ok token response, keeping its
status, status text and diagnostic body; `thrown` covers every other thrown
error (transport failure, `fs.statSync` failure, JSON parse failure),
keeping its message. -/
inductive JsError where
  | tokenFailed (status : Nat) (statusText : String) (body : String)
  | thrown (msg : String)
deriving Repr, DecidableEq

/-- The message carried by a `JsError`, as built at index.js line 90. -/
def errMsg : JsError → String
  | .tokenFailed status statusText body =>
      "Token generation failed: " ++ toString status ++ " " ++ statusText ++ " - " ++ body
  | .thrown m => m

/-- `generateToken` (index.js lines 61-105) as a function of the current
time, the outcome of the (at most one) external token fetch, and the cache
state.  Returns the result (`ok token` or the thrown error — the catch at
line 101 logs and rethrows, so errors propagate), the new cache state, and
the number of external token-acquisition calls issued (0 or 1). -/
def generateToken (now : Nat) (o : FetchOutcome) (s : TokenState) :
    Except JsError String × TokenState × Nat :=
  if tokenGuard now s then
    (.ok (s.cachedToken.getD ""), s, 0)
  else
    match o with
    | .netError m => (.error (.thrown m), s, 1)
    | .response status statusText body json =>
      if respOk status then
        match json with
        | some tok => (.ok tok, ⟨some tok, some (now + mins50)⟩, 1)
        | none => (.error (.thrown "invalid json in token response"), s, 1)
      else
        (.error (.tokenFailed status statusText body), s, 1)

/-- The inline cache invalidation of index.js lines 162-163:
`cachedToken = null; tokenExpiry = null;`. -/
def invalidate (s : TokenState) : TokenState :=
  { s with cachedToken := none, tokenExpiry := none }

/-- The token-cache states reachable by the program.  The only assignments
to `cachedToken` / `tokenExpiry` in the source are the successful fetch in
`generateToken` (lines 94 and 97) and the invalidation in `uploadBarFile`
(lines 162-163); `uploadBarFile` mutates the cache only through these two. -/
inductive TokenReachable : TokenState → Prop where
  | init : TokenReachable ⟨none, none⟩
  | stepGen (s : TokenState) (now : Nat) (o : FetchOutcome) :
      TokenReachable s → TokenReachable (generateToken now o s).2.1
  | stepInvalidate (s : TokenState) :
      TokenReachable s → TokenReachable (invalidate s)

/-- Node's `path.basename` (POSIX, no suffix argument): strip trailing
slashes, then take the component after the last remaining slash; a path of
only slashes gives `"/"`, the empty path gives `""`. -/
def basename (p : String) : String :=
  let rev := p.data.reverse
  let rev' := rev.dropWhile (fun c => c == '/')
  match rev' with
  | [] => if p.data.isEmpty then "" else "/"
  | _ => String.mk ((rev'.takeWhile (fun c => c != '/')).reverse)

/-- The upload HTTP request as `uploadBarFile` constructs it (index.js lines
125-147): `PUT {apiBaseUrl}/api/v1/bar-files/{fileName}.bar` with the four
headers of lines 141-144, and a multipart body whose single part carries the
file stream with `filename`, `contentType` and `knownLength` (lines 126-130). -/
structure UploadRequest where
  method : String
  url : String
  headers : List (String × String)
  bodyFilename : String
  bodyContentType : String
  bodyKnownLength : Nat
deriving Repr, DecidableEq

/-- Build the upload request for a file name, bearer token and file size,
exactly as index.js lines 126-147 do. -/
def mkUploadRequest (cfg : Config) (fileName : String) (token : String) (size : Nat) :
    UploadRequest :=
  { method := "PUT"
  , url := cfg.apiBaseUrl ++ "/api/v1/bar-files/" ++ fileName ++ ".bar"
  , headers :=
      [ ("X-IBM-Instance-Id", cfg.instanceId)
      , ("X-IBM-Client-Id", cfg.clientId)
      , ("authorization", "Bearer " ++ token)
      , ("Content-Type", "application/octet-stream") ]
  , bodyFilename := fileName
  , bodyContentType := "application/octet-stream"
  , bodyKnownLength := size }

/-- Observable events of one `uploadBarFile` run: external calls, the cache
invalidation, and the console diagnostics that report the outcome. -/
inductive Event where
  | tokenCall
  | uploadCall (req : UploadRequest)
  | invalidateTok
  | logSuccess (fileName : String)
  | logFailure (fileName : String) (status : Nat) (body : String)
  | logError (fileName : String) (msg : String)
deriving Repr, DecidableEq

/-- `generateToken` as called from `uploadBarFile`, consuming the scripted
token-fetch outcomes: on a cache hit no outcome is consumed and no
`tokenCall` event is emitted; on a miss the head outcome is consumed.  An
exhausted script behaves as a transport failure of the issued call. -/
def generateTokenC (now : Nat) (tokOS : List FetchOutcome) (s : TokenState) :
    Except JsError String × TokenState × List FetchOutcome × List Event :=
  if tokenGuard now s then
    (.ok (s.cachedToken.getD ""), s, tokOS, [])
  else
    match tokOS with
    | [] => (.error (.thrown "token fetch failed"), s, [], [.tokenCall])
    | o :: rest =>
      let r := generateToken now o s
      (r.1, r.2.1, rest, [.tokenCall])

/-- The `catch` block of `uploadBarFile` (index.js lines 168-173): a thrown
error is logged (`console.error`) and swallowed, so the function returns
normally. -/
def applyCatch (fileName : String) (r : List Event × TokenState × Except JsError Unit) :
    List Event × TokenState × Except JsError Unit :=
  match r with
  | (t, s, .ok ()) => (t, s, .ok ())
  | (t, s, .error e) => (t ++ [Event.logError fileName (errMsg e)], s, .ok ())

/-- The `try` block of `uploadBarFile` (index.js lines 114-167): obtain a
token, read the file size (`fs.statSync`; a failure throws), build the
request, perform the upload fetch (consuming the head of `upOS`; an
exhausted script behaves as a transport failure), and on a 401 with a
truthy `cachedToken` invalidate the cache and re-enter the whole function
(`return uploadBarFile(filePath)`, line 165 — the inner call carries its
own catch, applied here via `applyCatch`).  The third component is the
error propagating out of the try block, if any. -/
def uploadTry (cfg : Config) (filePath : String) (now : Nat) (stat : Except String Nat)
    (tokOS : List FetchOutcome) (upOS : List FetchOutcome) (s : TokenState) :
    List Event × TokenState × Except JsError Unit :=
  let fileName := basename filePath
  match generateTokenC now tokOS s with
  | (.error e, s1, _, tev) => (tev, s1, .error e)
  | (.ok token, s1, tokRest, tev) =>
    match stat with
    | .error m => (tev, s1, .error (.thrown m))
    | .ok size =>
      let req := mkUploadRequest cfg fileName token size
      match upOS with
      | [] => (tev ++ [Event.uploadCall req], s1, .error (.thrown "upload fetch failed"))
      | o :: rest =>
        match o with
        | .netError m => (tev ++ [Event.uploadCall req], s1, .error (.thrown m))
        | .response status _statusText body json =>
          if respOk status then
            match json with
            | some _ => (tev ++ [Event.uploadCall req, Event.logSuccess fileName], s1, .ok ())
            | none =>
              (tev ++ [Event.uploadCall req], s1, .error (.thrown "invalid json in upload response"))
          else
            if status == 401 && truthyStr s1.cachedToken then
              let inner :=
                applyCatch fileName (uploadTry cfg filePath now stat tokRest rest ⟨none, none⟩)
              (tev ++ [Event.uploadCall req, Event.logFailure fileName status body,
                  Event.invalidateTok] ++ inner.1,
               inner.2.1, inner.2.2)
            else
              (tev ++ [Event.uploadCall req, Event.logFailure fileName status body], s1, .ok ())

/-- `uploadBarFile` (index.js lines 111-174): the try block wrapped in the
catch block.  Inputs: the configuration, the file path, the current time,
the `fs.statSync` outcome, the scripted token-fetch and upload-fetch
outcomes, and the token-cache state.  Output: event trace, final cache
state, and the error propagated to the caller (none, by the catch). -/
def uploadBarFile (cfg : Config) (filePath : String) (now : Nat) (stat : Except String Nat)
    (tokOS : List FetchOutcome) (upOS : List FetchOutcome) (s : TokenState) :
    List Event × TokenState × Except JsError Unit :=
  applyCatch (basename filePath) (uploadTry cfg filePath now stat tokOS upOS s)

/-- Is this event an external upload call? -/
def isUploadCall : Event → Bool
  | .uploadCall _ => true
  | _ => false

/-- Is this event an external token-acquisition call? -/
def isTokenCall : Event → Bool
  | .tokenCall => true
  | _ => false

/-- Is this event a token-cache invalidation? -/
def isInvalidate : Event → Bool
  | .invalidateTok => true
  | _ => false

/-- Is this event a success report? -/
def isLogSuccess : Event → Bool
  | .logSuccess _ => true
  | _ => false

/-- Number of external upload calls in a trace. -/
def uploadCallCount (t : List Event) : Nat := (t.filter isUploadCall).length

/-- Number of external token-acquisition calls in a trace. -/
def tokenCallCount (t : List Event) : Nat := (t.filter isTokenCall).length

/-- Number of token-cache invalidations in a trace. -/
def invalidateCount (t : List Event) : Nat := (t.filter isInvalidate).length

/-- Number of success reports in a trace. -/
def successCount (t : List Event) : Nat := (t.filter isLogSuccess).length

/-- The `debounceTimers` map (index.js line 51): a JavaScript `Map` from
file path to timer handle, modelled as an association list in insertion
order.  Timer handles are numbers. -/
abbrev DebMap := List (String × Nat)

/-- `Map.prototype.get`. -/
def mapGet : DebMap → String → Option Nat
  | [], _ => none
  | (a, b) :: rest, k => if a == k then some b else mapGet rest k

/-- `Map.prototype.has`. -/
def mapHas (m : DebMap) (k : String) : Bool := (mapGet m k).isSome

/-- `Map.prototype.set`: replace the value of an existing key in place,
otherwise append a fresh entry. -/
def mapSet : DebMap → String → Nat → DebMap
  | [], k, v => [(k, v)]
  | (a, b) :: rest, k, v => if a == k then (k, v) :: rest else (a, b) :: mapSet rest k v

/-- `Map.prototype.delete`: remove the entry of a key. -/
def mapDelete : DebMap → String → DebMap
  | [], _ => []
  | (a, b) :: rest, k => if a == k then mapDelete rest k else (a, b) :: mapDelete rest k

/-- `handleFileChange` (index.js lines 180-196): if a timer for `filePath`
is in the map, `clearTimeout` it; then install a fresh timer handle.
Returns the new map and the list of timer handles passed to `clearTimeout`. -/
def handleFileChange (m : DebMap) (filePath : String) (newTimer : Nat) : DebMap × List Nat :=
  let cancelled :=
    match mapGet m filePath with
    | some t => [t]
    | none => []
  (mapSet m filePath newTimer, cancelled)

/-- The timer callback of index.js lines 189-192: when the debounce timer
for `filePath` fires, its entry is deleted from the map and then
`uploadBarFile(filePath)` is started.  Returns the map as it stands when
the upload starts, and the list of uploads started. -/
def timerFire (m : DebMap) (filePath : String) : DebMap × List String :=
  (mapDelete m filePath, [filePath])

/-- Debounce maps reachable by the program: the map starts empty and is
mutated only by `handleFileChange` (lines 184-194) and by a firing timer
(line 190). -/
inductive DebReachable : DebMap → Prop where
  | init : DebReachable []
  | stepChange (m : DebMap) (p : String) (t : Nat) :
      DebReachable m → DebReachable (handleFileChange m p t).1
  | stepFire (m : DebMap) (p : String) :
      DebReachable m → DebReachable (timerFire m p).1

/-- Timed behaviour of the debouncer for one fixed path, under the
`setTimeout`/`clearTimeout` semantics of index.js lines 184-194 (entries
for different paths are independent, the map being keyed by path).  The
first argument list holds the times of successive `handleFileChange` calls
for the path, in chronological order; the accumulator holds the deadline of
the pending timer, if any.  A pending timer whose deadline has been reached
by the time of the next call fires (producing a trigger at its deadline);
otherwise the call cancels it.  Each call arms a fresh timer due `d`
milliseconds later; after the last call the pending timer fires.  Returns
the times at which the upload trigger fires. -/
def debounceTriggers (d : Nat) : List Nat → Option Nat → List Nat
  | [], some dl => [dl]
  | [], none => []
  | t :: ts, some dl =>
      if dl ≤ t then dl :: debounceTriggers d ts (some (t + d))
      else debounceTriggers d ts (some (t + d))
  | t :: ts, none => debounceTriggers d ts (some (t + d))

/-- The last element of `t :: ts`. -/
def lastIn (t : Nat) (ts : List Nat) : Nat := ts.foldl (fun _ b => b) t

/-- The application state the SIGINT handler can touch: the pending
debounce timers and whether the chokidar watcher is open. -/
structure AppState where
  timers : DebMap
  watcherOpen : Bool
deriving Repr, DecidableEq

/-- The SIGINT handler (index.js lines 250-254): `watcher.close(); process.exit(0);`.
Returns the state at the moment the process exits, and the exit status. -/
def sigintHandler (st : AppState) : AppState × Nat :=
  ({ st with watcherOpen := false }, 0)

/-- Scripted outcome: the token endpoint answers 200 with `access_token`
field `tok`. -/
def okTok (tok : String) : FetchOutcome := .response 200 "OK" "" (some tok)

/-- Scripted outcome: the upload endpoint answers 401. -/
def up401 : FetchOutcome := .response 401 "Unauthorized" "Token expired" none

/-- Scripted outcome: the upload endpoint answers 200 with a JSON body. -/
def up200 : FetchOutcome := .response 200 "OK" "\x7b\x7d" (some "success")

/-- Scripted outcome: the upload endpoint answers 500. -/
def up500 : FetchOutcome := .response 500 "Internal Server Error" "boom" none

/-- A concrete configuration for closed evaluations. -/
def cfgEx : Config :=
  { apiBaseUrl := "https://api.example.com"
  , clientId := "cid"
  , clientSecret := "csec"
  , apiKey := "akey"
  , instanceId := "inst"
  , debounceMs := 1000 }

/-- The claimed token-cache invariant (spec section 3): a token value is
present iff an expiry timestamp is present and lies in the future at the
moment of access. -/
def presentIffFutureExpiry (s : TokenState) (now : Nat) : Prop :=
  s.cachedToken.isSome ↔ (∃ e, s.tokenExpiry = some e ∧ now < e)

/-- The cache state right after a successful token acquisition at time 0. -/
def sC7 : TokenState := (generateToken 0 (okTok "tok-A") ⟨none, none⟩).2.1

/-- A debounce map holding one pending timer. -/
def debM1 : DebMap := (handleFileChange [] "/watch/app.bar" 5).1

/-- An application state with one pending debounce timer and an open watcher. -/
def stC6 : AppState := { timers := [("/watch/app.bar", 7)], watcherOpen := true }

/-- An `uploadBarFile` run whose upload calls answer 401 then 200, with the
token endpoint succeeding each time. -/
def runRetryOk : List Event × TokenState × Except JsError Unit :=
  uploadBarFile cfgEx "/watch/app.bar" 0 (.ok 1024)
    [okTok "tok-A", okTok "tok-B"] [up401, up200] ⟨none, none⟩

/-- An `uploadBarFile` run whose upload calls answer 401 then 401 (then 500),
with the token endpoint succeeding each time. -/
def runPersistent401 : List Event × TokenState × Except JsError Unit :=
  uploadBarFile cfgEx "/watch/app.bar" 0 (.ok 1024)
    [okTok "tok-A", okTok "tok-B", okTok "tok-C"] [up401, up401, up500] ⟨none, none⟩

/-! Helper lemmas. -/

theorem tokenGuard_of_valid (now : Nat) (tok : String) (e : Nat)
    (htok : tok ≠ "") (he : e ≠ 0) (hlt : now < e) :
    tokenGuard now ⟨some tok, some e⟩ = true := by
  simp only [tokenGuard, truthyStr, truthyNum, Bool.and_eq_true, bne_iff_ne, ne_eq,
    decide_eq_true_eq]
  exact ⟨⟨htok, he⟩, hlt⟩

theorem generateToken_state (now : Nat) (o : FetchOutcome) (s : TokenState) :
    (generateToken now o s).2.1 = s ∨
      ∃ tok : String, (generateToken now o s).2.1 = ⟨some tok, some (now + mins50)⟩ := by
  unfold generateToken
  split
  · exact Or.inl rfl
  · cases o with
    | netError m => exact Or.inl rfl
    | response status statusText body json =>
      by_cases h : respOk status = true
      · cases json with
        | some tok => simp [h]
        | none => simp [h]
      · simp [h]

theorem tokenGuard_implies (now : Nat) (s : TokenState) (h : tokenGuard now s = true) :
    ∃ e, s.tokenExpiry = some e ∧ now < e := by
  rcases s with ⟨v, exp⟩
  cases exp with
  | none => simp [tokenGuard, truthyNum] at h
  | some e =>
    refine ⟨e, rfl, ?_⟩
    simp only [tokenGuard, Bool.and_eq_true, decide_eq_true_eq] at h
    exact h.2

/-! Claim theorems. -/

/-- Claim C2: starting from a cache miss, a `getToken` call that succeeds
issues exactly one external acquisition call and caches the token with a
50-minute validity window; a second call at any time still inside that
window returns the identical token value and issues no external call
(so the two calls issue exactly one external acquisition call in total),
whatever outcome the environment would have scripted for it. -/
theorem claim_c2_token_reuse (s0 : TokenState) (now1 now2 : Nat) (st body tok : String)
    (o2 : FetchOutcome) (hmiss : tokenGuard now1 s0 = false) (htok : tok ≠ "")
    (hwin : now2 < now1 + mins50) :
    generateToken now1 (.response 200 st body (some tok)) s0 =
      (.ok tok, ⟨some tok, some (now1 + mins50)⟩, 1) ∧
    generateToken now2 o2 ⟨some tok, some (now1 + mins50)⟩ =
      (.ok tok, ⟨some tok, some (now1 + mins50)⟩, 0) := by
  constructor
  · simp [generateToken, hmiss, respOk]
  · have hg : tokenGuard now2 ⟨some tok, some (now1 + mins50)⟩ = true :=
      tokenGuard_of_valid now2 tok (now1 + mins50) htok (by simp [mins50]) hwin
    simp [generateToken, hg]

theorem claim_c2_token_reuse_witness :
    generateToken 0 (.response 200 "OK" "" (some "tok-A")) ⟨none, none⟩ =
      (.ok "tok-A", ⟨some "tok-A", some (0 + mins50)⟩, 1) ∧
    generateToken 1000 (FetchOutcome.netError "unused") ⟨some "tok-A", some (0 + mins50)⟩ =
      (.ok "tok-A", ⟨some "tok-A", some (0 + mins50)⟩, 0) :=
  claim_c2_token_reuse ⟨none, none⟩ 0 1000 "OK" "" "tok-A" (.netError "unused")
    (by decide) (by decide) (by decide)

/-- Claim C3: after the invalidation performed by `uploadBarFile` (clearing
both `cachedToken` and `tokenExpiry`), the next `getToken` call always
issues exactly one new external acquisition call, for every prior cache
state (in particular for one whose validity window had not yet elapsed),
every current time and every scripted outcome. -/
theorem claim_c3_invalidate_then_fetch (s : TokenState) (now : Nat) (o : FetchOutcome) :
    (generateToken now o (invalidate s)).2.2 = 1 := by
  have hg : tokenGuard now (invalidate s) = false := by
    simp [tokenGuard, invalidate, truthyStr]
  cases o with
  | netError m => simp [generateToken, hg]
  | response status statusText body json =>
    by_cases h : respOk status = true
    · cases json with
      | some tok => simp [generateToken, hg, h]
      | none => simp [generateToken, hg, h]
    · simp [generateToken, hg, h]

/-- Claim C4: when the external acquisition call reports a non-success
status, `getToken` fails with the error built at index.js line 90 — which
carries the response status and the diagnostic body — no token is cached,
and the cache state is left exactly as it was. -/
theorem claim_c4_token_failure (s : TokenState) (now status : Nat)
    (statusText body : String) (json : Option String)
    (hmiss : tokenGuard now s = false) (hbad : respOk status = false) :
    generateToken now (.response status statusText body json) s =
      (.error (.tokenFailed status statusText body), s, 1) := by
  simp [generateToken, hmiss, hbad]

theorem claim_c4_token_failure_witness :
    generateToken 0 (.response 401 "Unauthorized" "Invalid credentials" none) ⟨none, none⟩ =
      (.error (.tokenFailed 401 "Unauthorized" "Invalid credentials"), ⟨none, none⟩, 1) :=
  claim_c4_token_failure ⟨none, none⟩ 0 401 "Unauthorized" "Invalid credentials" none
    (by decide) (by decide)

/-- Claim C7 counterexample: the claimed invariant — a token value is
present iff an expiry timestamp is present and in the future at the moment
of access — fails on a reachable cache state.  After a successful
acquisition at time 0 the state still holds the token at time `mins50`
(the code never clears an expired pair; `getToken` merely ignores it), so
the value is present while the expiry is no longer in the future. -/
theorem claim_c7_counterexample :
    TokenReachable sC7 ∧ ¬ presentIffFutureExpiry sC7 mins50 := by
  constructor
  · exact TokenReachable.stepGen ⟨none, none⟩ 0 (okTok "tok-A") TokenReachable.init
  · have h : sC7 = ⟨some "tok-A", some mins50⟩ := by decide
    rw [h]
    unfold presentIffFutureExpiry
    intro hiff
    rcases hiff.mp rfl with ⟨e, he, hlt⟩
    have hm : mins50 = e := by simpa using he
    subst hm
    exact absurd hlt (lt_irrefl _)

/-- Claim C7 amended: in every reachable cache state a token value is
present iff an expiry timestamp is present (the two fields are always set
and cleared together); the pair may persist past its expiry, but the
validity check `tokenGuard` lets `getToken` serve a cached token only when
the expiry is still in the future at the access time. -/
theorem claim_c7_amended (s : TokenState) (h : TokenReachable s) :
    (s.cachedToken.isSome ↔ s.tokenExpiry.isSome) ∧
    (∀ now : Nat, tokenGuard now s = true → ∃ e, s.tokenExpiry = some e ∧ now < e) := by
  refine ⟨?_, fun now hg => tokenGuard_implies now s hg⟩
  induction h with
  | init => simp
  | stepGen s now o hr ih =>
    rcases generateToken_state now o s with hst | ⟨tok, hst⟩
    · rw [hst]; exact ih
    · rw [hst]; simp
  | stepInvalidate s hr ih => simp [invalidate]

theorem claim_c7_amended_witness :
    (sC7.cachedToken.isSome ↔ sC7.tokenExpiry.isSome) ∧
    (∀ now : Nat, tokenGuard now sC7 = true → ∃ e, sC7.tokenExpiry = some e ∧ now < e) :=
  claim_c7_amended sC7
    (TokenReachable.stepGen ⟨none, none⟩ 0 (okTok "tok-A") TokenReachable.init)

theorem debounceTriggers_pending (d : Nat) (ts : List Nat) :
    ∀ t : Nat, List.Chain' (fun a b => a ≤ b ∧ b < a + d) (t :: ts) →
      debounceTriggers d ts (some (t + d)) = [lastIn t ts + d] := by
  induction ts with
  | nil => intro t _; simp [debounceTriggers, lastIn]
  | cons t' ts' ih =>
    intro t hch
    have h1 : t' < t + d := (List.chain'_cons.mp hch).1.2
    have h2 : List.Chain' (fun a b => a ≤ b ∧ b < a + d) (t' :: ts') :=
      (List.chain'_cons.mp hch).2
    have hlast : lastIn t (t' :: ts') = lastIn t' ts' := rfl
    rw [hlast]
    unfold debounceTriggers
    rw [if_neg (by omega)]
    exact ih t' h2

/-- Claim C5: for a burst of `handleFileChange` calls for one path at
chronological times `t :: ts`, each within less than the debounce interval
`d` of its predecessor, exactly one upload trigger fires, and it fires at
`d` milliseconds after the last call of the burst — every earlier timer
being cancelled and replaced by its successor call. -/
theorem claim_c5_debounce_coalescing (d t : Nat) (ts : List Nat)
    (hch : List.Chain' (fun a b => a ≤ b ∧ b < a + d) (t :: ts)) :
    debounceTriggers d (t :: ts) none = [lastIn t ts + d] :=
  debounceTriggers_pending d ts t hch

theorem claim_c5_debounce_coalescing_witness :
    debounceTriggers 1000 [0, 300, 600] none = [600 + 1000] :=
  claim_c5_debounce_coalescing 1000 0 [300, 600]
    (List.chain'_cons.mpr ⟨⟨by omega, by omega⟩,
      List.chain'_cons.mpr ⟨⟨by omega, by omega⟩, List.chain'_singleton 600⟩⟩)

/-- Claim C6 counterexample: the claim says a termination signal cancels
every pending debounce timer, closes the watcher and exits 0; but the
SIGINT handler of index.js lines 250-254 only closes the watcher and exits —
on a state with one pending timer, the timer map is left untouched rather
than emptied. -/
theorem claim_c6_counterexample :
    ¬ ((sigintHandler stC6).1.timers = [] ∧ (sigintHandler stC6).1.watcherOpen = false ∧
       (sigintHandler stC6).2 = 0) := by
  decide

/-- Claim C6 amended: on a termination signal the process closes the
watcher and exits with status 0, leaving the pending-timer map exactly as
it was (no timer is explicitly cancelled; none fires, because the process
exits). -/
theorem claim_c6_amended (st : AppState) :
    sigintHandler st = ({ timers := st.timers, watcherOpen := false }, 0) := rfl

theorem mapGet_mapSet_self (m : DebMap) (k : String) (v : Nat) :
    mapGet (mapSet m k v) k = some v := by
  induction m with
  | nil => simp [mapSet, mapGet]
  | cons a rest ih =>
    rcases a with ⟨ak, av⟩
    by_cases h : (ak == k) = true
    · simp [mapSet, mapGet, h]
    · simp only [mapSet, h, Bool.false_eq_true, if_false, mapGet]
      exact ih

theorem mapGet_mapDelete_self (m : DebMap) (k : String) :
    mapGet (mapDelete m k) k = none := by
  induction m with
  | nil => simp [mapDelete, mapGet]
  | cons a rest ih =>
    rcases a with ⟨ak, av⟩
    by_cases h : (ak == k) = true
    · simpa [mapDelete, h] using ih
    · simp only [mapDelete, h, Bool.false_eq_true, if_false, mapGet]
      exact ih

theorem mem_keys_mapSet (m : DebMap) (k : String) (v : Nat) (x : String) :
    x ∈ (mapSet m k v).map Prod.fst → x ∈ m.map Prod.fst ∨ x = k := by
  induction m with
  | nil => simp [mapSet]
  | cons a rest ih =>
    rcases a with ⟨ak, av⟩
    by_cases h : (ak == k) = true
    · have hak : ak = k := by simpa using h
      simp [mapSet, h, hak]
      tauto
    · simp only [mapSet, h, Bool.false_eq_true, if_false, List.map_cons, List.mem_cons]
      rintro (hx | hx)
      · exact Or.inl (Or.inl hx)
      · rcases ih hx with h' | h'
        · exact Or.inl (Or.inr h')
        · exact Or.inr h'

theorem mem_keys_mapDelete (m : DebMap) (k : String) (x : String) :
    x ∈ (mapDelete m k).map Prod.fst → x ∈ m.map Prod.fst := by
  induction m with
  | nil => simp [mapDelete]
  | cons a rest ih =>
    rcases a with ⟨ak, av⟩
    by_cases h : (ak == k) = true
    · intro hx
      exact List.mem_cons_of_mem _ (ih (by simpa [mapDelete, h] using hx))
    · simp only [mapDelete, h, Bool.false_eq_true, if_false, List.map_cons, List.mem_cons]
      rintro (hx | hx)
      · exact Or.inl hx
      · exact Or.inr (ih hx)

theorem nodup_keys_mapSet (m : DebMap) (k : String) (v : Nat)
    (h : (m.map Prod.fst).Nodup) : ((mapSet m k v).map Prod.fst).Nodup := by
  induction m with
  | nil => simp [mapSet]
  | cons a rest ih =>
    rcases a with ⟨ak, av⟩
    rcases List.nodup_cons.mp h with ⟨hnm, hnd⟩
    by_cases heq : (ak == k) = true
    · have hak : ak = k := by simpa using heq
      have hres : mapSet ((ak, av) :: rest) k v = (k, v) :: rest := by
        simp [mapSet, heq]
      rw [hres]
      rw [hak] at hnm
      exact List.nodup_cons.mpr ⟨hnm, hnd⟩
    · have hres : mapSet ((ak, av) :: rest) k v = (ak, av) :: mapSet rest k v := by
        simp [mapSet, heq]
      rw [hres]
      refine List.nodup_cons.mpr ⟨fun hx => ?_, ih hnd⟩
      rcases mem_keys_mapSet rest k v ak hx with h' | h'
      · exact hnm h'
      · exact absurd h' (by simpa using heq)

theorem nodup_keys_mapDelete (m : DebMap) (k : String)
    (h : (m.map Prod.fst).Nodup) : ((mapDelete m k).map Prod.fst).Nodup := by
  induction m with
  | nil => simp [mapDelete]
  | cons a rest ih =>
    rcases a with ⟨ak, av⟩
    rcases List.nodup_cons.mp h with ⟨hnm, hnd⟩
    by_cases heq : (ak == k) = true
    · simpa [mapDelete, heq] using ih hnd
    · simp only [mapDelete, heq, Bool.false_eq_true, if_false, List.map_cons, List.nodup_cons]
      exact ⟨fun hx => hnm (mem_keys_mapDelete rest k ak hx), ih hnd⟩

theorem debReachable_nodup (m : DebMap) (h : DebReachable m) :
    (m.map Prod.fst).Nodup := by
  induction h with
  | init => simp
  | stepChange m p t hr ih => exact nodup_keys_mapSet m p t ih
  | stepFire m p hr ih => exact nodup_keys_mapDelete m p ih

/-- Claim C10: the debounce map keeps at most one timer entry per path (its
key list has no duplicates in every reachable map, and stays so);
scheduling a change for a path cancels exactly the existing timer for that
path, if any, and installs the new one in its place; and when a timer
fires, its entry is removed before the upload is started, so the map holds
no entry for that path when its upload runs. -/
theorem claim_c10_debounce_map_invariants (m : DebMap) (p : String) (tmr : Nat)
    (h : DebReachable m) :
    (m.map Prod.fst).Nodup ∧
    (((handleFileChange m p tmr).1.map Prod.fst).Nodup ∧
      ((timerFire m p).1.map Prod.fst).Nodup) ∧
    (∀ old, mapGet m p = some old → (handleFileChange m p tmr).2 = [old]) ∧
    mapGet (handleFileChange m p tmr).1 p = some tmr ∧
    mapGet (timerFire m p).1 p = none ∧
    (timerFire m p).2 = [p] := by
  refine ⟨debReachable_nodup m h,
    ⟨nodup_keys_mapSet m p tmr (debReachable_nodup m h),
     nodup_keys_mapDelete m p (debReachable_nodup m h)⟩,
    fun old hold => ?_, mapGet_mapSet_self m p tmr, mapGet_mapDelete_self m p, rfl⟩
  simp [handleFileChange, hold]

theorem claim_c10_debounce_map_invariants_witness :
    (debM1.map Prod.fst).Nodup ∧
    (((handleFileChange debM1 "/watch/app.bar" 9).1.map Prod.fst).Nodup ∧
      ((timerFire debM1 "/watch/app.bar").1.map Prod.fst).Nodup) ∧
    (∀ old, mapGet debM1 "/watch/app.bar" = some old →
      (handleFileChange debM1 "/watch/app.bar" 9).2 = [old]) ∧
    mapGet (handleFileChange debM1 "/watch/app.bar" 9).1 "/watch/app.bar" = some 9 ∧
    mapGet (timerFire debM1 "/watch/app.bar").1 "/watch/app.bar" = none ∧
    (timerFire debM1 "/watch/app.bar").2 = ["/watch/app.bar"] :=
  claim_c10_debounce_map_invariants debM1 "/watch/app.bar" 9
    (DebReachable.stepChange [] "/watch/app.bar" 5 DebReachable.init)

/-- Claim C1 evaluated on the code: for upload calls answering 401 then 200
(token endpoint succeeding each time), the run performs exactly 2 upload
calls and exactly 1 invalidation and reports success — but for upload calls
answering 401 then 401, the run performs a THIRD upload call: the retry
condition `response.status === 401 && cachedToken` (index.js line 160)
holds again after the second acquisition refills the cache, so the
recursion of line 165 has no retry budget and the claimed
"exactly 2 upload calls, no third call" is violated. -/
theorem claim_c1_failing_eval :
    (uploadCallCount runRetryOk.1 = 2 ∧ invalidateCount runRetryOk.1 = 1 ∧
      successCount runRetryOk.1 = 1 ∧ runRetryOk.2.2 = Except.ok ()) ∧
    uploadCallCount runPersistent401.1 = 3 :=
  ⟨⟨rfl, rfl, rfl, rfl⟩, rfl⟩

/-- Claim C8: an upload run whose token call succeeds with token `tok` and
whose upload call answers 2xx issues exactly one upload request, and that
request is a `PUT` to `{apiBaseUrl}/api/v1/bar-files/{fileName}.bar` — the
file name, which already carries `.bar`, gets a second `.bar` appended, so
`order-flow.bar` is uploaded to `/api/v1/bar-files/order-flow.bar.bar` —
with headers `X-IBM-Instance-Id`, `X-IBM-Client-Id`,
`authorization: Bearer {token}` and `Content-Type: application/octet-stream`,
and a multipart body carrying the file name, content type
`application/octet-stream` and known length equal to the file's byte size. -/
theorem claim_c8_upload_request_shape (cfg : Config) (filePath : String) (now size : Nat)
    (tok st1 b1 st2 b2 j : String) :
    uploadBarFile cfg filePath now (.ok size)
        [.response 200 st1 b1 (some tok)] [.response 200 st2 b2 (some j)] ⟨none, none⟩ =
      ([Event.tokenCall,
        Event.uploadCall (mkUploadRequest cfg (basename filePath) tok size),
        Event.logSuccess (basename filePath)],
       ⟨some tok, some (now + mins50)⟩, .ok ()) ∧
    mkUploadRequest cfg (basename filePath) tok size =
      { method := "PUT"
      , url := cfg.apiBaseUrl ++ "/api/v1/bar-files/" ++ basename filePath ++ ".bar"
      , headers :=
          [ ("X-IBM-Instance-Id", cfg.instanceId)
          , ("X-IBM-Client-Id", cfg.clientId)
          , ("authorization", "Bearer " ++ tok)
          , ("Content-Type", "application/octet-stream") ]
      , bodyFilename := basename filePath
      , bodyContentType := "application/octet-stream"
      , bodyKnownLength := size } ∧
    basename "/watch/order-flow.bar" = "order-flow.bar" ∧
    (mkUploadRequest cfgEx "order-flow.bar" "tok-A" 1024).url =
      "https://api.example.com/api/v1/bar-files/order-flow.bar.bar" :=
  ⟨rfl, rfl, by decide, by decide⟩

/-- Claim C9: `uploadBarFile` always returns normally — for every
configuration, path, clock value, `fs.statSync` outcome, scripted token and
upload outcomes and cache state, the error component of its result is
`ok ()`, never a propagated exception; and whenever the try block raises an
error, the run reports it through the diagnostic `console.error` of the
catch block instead. -/
theorem claim_c9_never_throws (cfg : Config) (filePath : String) (now : Nat)
    (stat : Except String Nat) (tokOS upOS : List FetchOutcome) (s : TokenState) :
    (uploadBarFile cfg filePath now stat tokOS upOS s).2.2 = Except.ok () ∧
    (∀ e, (uploadTry cfg filePath now stat tokOS upOS s).2.2 = Except.error e →
      (uploadBarFile cfg filePath now stat tokOS upOS s).1 =
        (uploadTry cfg filePath now stat tokOS upOS s).1 ++
          [Event.logError (basename filePath) (errMsg e)]) := by
  rcases hr : uploadTry cfg filePath now stat tokOS upOS s with ⟨t, s', r⟩
  constructor
  · cases r with
    | ok u => cases u; simp [uploadBarFile, hr, applyCatch]
    | error e => simp [uploadBarFile, hr, applyCatch]
  · intro e he
    cases r with
    | ok u => cases u; simp at he
    | error e' =>
      have heq : e' = e := by simpa using he
      subst heq
      simp [uploadBarFile, hr, applyCatch]

theorem claim_c9_never_throws_witness :
    (uploadBarFile cfgEx "/watch/app.bar" 0 (.error "ENOENT") [okTok "tok-A"] []
        ⟨none, none⟩).2.2 = Except.ok () ∧
    (uploadBarFile cfgEx "/watch/app.bar" 0 (.error "ENOENT") [okTok "tok-A"] []
        ⟨none, none⟩).1 =
      (uploadTry cfgEx "/watch/app.bar" 0 (.error "ENOENT") [okTok "tok-A"] []
          ⟨none, none⟩).1 ++
        [Event.logError (basename "/watch/app.bar") (errMsg (.thrown "ENOENT"))] := by
  have h := claim_c9_never_throws cfgEx "/watch/app.bar" 0 (.error "ENOENT")
    [okTok "tok-A"] [] ⟨none, none⟩
  exact ⟨h.1, h.2 (.thrown "ENOENT") rfl⟩

end BarSync
